import Mathlib

/-!
Verification development for the `ntfsparser` repository, a read-only
forensic parser for NTFS volume images.  The Python sources under
`src/ntfs_parser/src` are shallowly embedded here: bytes are `Nat`
(each in `0..255`), byte strings are `List Nat`, Python `Result`
becomes the inductive `Res`, Python exceptions become explicit
`Option`/abort flags, and the stateful seek-then-read file handles of
the split-image reader become explicit state passing.
-/

namespace NTFSParser

/-- Python slice `data[off : off + n]`: never fails, silently truncates. -/
def bytesAt (data : List Nat) (off n : Nat) : List Nat :=
  (data.drop off).take n

/-- Python index `data[i]`: `none` models an `IndexError`. -/
def byteAt (data : List Nat) (i : Nat) : Option Nat :=
  data.get? i

/-- `int.from_bytes(bs, 'little')` on an unsigned little-endian byte list. -/
def leNat : List Nat → Nat
  | [] => 0
  | b :: rest => b + 256 * leNat rest

/-- Little-endian u16 read at `off` (by slicing, as the source does). -/
def u16 (data : List Nat) (off : Nat) : Nat := leNat (bytesAt data off 2)

/-- Little-endian u32 read at `off`. -/
def u32 (data : List Nat) (off : Nat) : Nat := leNat (bytesAt data off 4)

/-- Little-endian u64 read at `off`. -/
def u64 (data : List Nat) (off : Nat) : Nat := leNat (bytesAt data off 8)

/-- `int.from_bytes(bs, 'little', signed=True)`: two's complement over
`8 * bs.length` bits. -/
def leSigned (bs : List Nat) : Int :=
  if 2 ^ (8 * bs.length - 1) ≤ leNat bs then
    (leNat bs : Int) - 2 ^ (8 * bs.length)
  else (leNat bs : Int)

/-- Error kinds of `src/core/errors.py` (`NTFSError`). -/
inductive NTFSErrorK where
  | success
  | invalidParameter
  | ioError
  | corruptVolume
  | invalidBootSector
  | invalidMft
  | notFound
  deriving DecidableEq, Repr

/-- `Result` of `src/core/errors.py`, without the free-form message. -/
inductive Res (α : Type) where
  | ok : α → Res α
  | err : NTFSErrorK → Res α
  deriving DecidableEq, Repr

/-- A decoded extent (`DataRun` in `src/ntfs/mft.py`). -/
structure DataRun where
  cluster : Int
  length : Nat
  deriving DecidableEq, Repr

/-- The data-run loop of `MFTAttribute.from_raw_data`
(`src/ntfs/mft.py` lines 49-84).  The second component is `true` when
the loop was aborted by the `lcn_bytes[-1]` `IndexError` that the
source raises whenever `offset_size == 0` (the exception is caught one
level up; runs appended before the abort are kept). -/
def parseRunsAux (data : List Nat) :
    Nat → Nat → Int → List DataRun × Bool
  | 0, _, _ => ([], false)
  | fuel + 1, off, lcn =>
    if off ≥ data.length then ([], false)
    else
      let header := (byteAt data off).getD 0
      if header = 0 then ([], false)
      else
        let lengthSize := header % 16
        let offsetSize := (header / 16) % 16
        let off1 := off + 1
        if off1 + lengthSize + offsetSize > data.length then ([], false)
        else
          let runLength := leNat (bytesAt data off1 lengthSize)
          if offsetSize = 0 then ([], true)
          else
            let lcnBytes := bytesAt data (off1 + lengthSize) offsetSize
            let delta := leSigned lcnBytes
            let lcn' := lcn + delta
            let rest := parseRunsAux data fuel (off1 + lengthSize + offsetSize) lcn'
            (⟨lcn', runLength⟩ :: rest.1, rest.2)

/-- Wrapper choosing ample fuel: every continuing iteration advances
the offset by at least one byte while it stays below `data.length`,
so `data.length + 1` steps are never exhausted and the fuel-free loop
of the source is reproduced exactly. -/
def parseRunsLoop (data : List Nat) (off : Nat) (lcn : Int) :
    List DataRun × Bool :=
  parseRunsAux data (data.length + 1) off lcn

/-- An attribute record (`MFTAttribute` in `src/ntfs/mft.py`).  Names
are kept as UTF-16 code-unit lists; `none` models Python `None`. -/
structure MFTAttribute where
  type_id : Nat
  name : Option (List Nat)
  resident : Bool
  data : List Nat
  data_runs : List DataRun
  data_size : Nat
  deriving DecidableEq, Repr

/-- `MFTAttribute.from_raw_data` (`src/ntfs/mft.py` lines 21-94).
For a non-resident attribute the run list is decoded from
`runs_offset` (u16 at 0x20) and `data_size` (u64 at 0x30) is assigned
only after the loop finishes; when the loop aborts with the
`IndexError` described at `parseRunsLoop`, the assignment is skipped
and `data_size` keeps its constructor value 0. -/
def fromRawData (attrType : Nat) (name : Option (List Nat))
    (resident : Bool) (data : List Nat) : MFTAttribute :=
  if resident then
    ⟨attrType, name, true, data, [], data.length⟩
  else
    let runsOffset := u16 data 32
    let dataSize := leNat (bytesAt data 48 8)
    let parsed := parseRunsLoop data runsOffset 0
    ⟨attrType, name, false, [], parsed.1, if parsed.2 then 0 else dataSize⟩

/-- UTF-16 code-unit surrogate classification. -/
def isHighSurr (u : Nat) : Bool := 0xD800 ≤ u && u ≤ 0xDBFF

/-- UTF-16 code-unit surrogate classification. -/
def isLowSurr (u : Nat) : Bool := 0xDC00 ≤ u && u ≤ 0xDFFF

/-- Surrogates must come in high/low pairs for a strict decode. -/
def utf16Paired : List Nat → Bool
  | [] => true
  | [u] => !(isHighSurr u || isLowSurr u)
  | u :: v :: rest =>
    if isHighSurr u then isLowSurr v && utf16Paired rest
    else if isLowSurr u then false
    else utf16Paired (v :: rest)

/-- Pair up little-endian byte pairs into UTF-16 code units. -/
def utf16Units : List Nat → List Nat
  | lo :: hi :: rest => (lo + 256 * hi) :: utf16Units rest
  | _ => []

/-- Python `bs.decode('utf-16le')` (strict): fails on odd byte length
or unpaired surrogates; the decoded string is kept as its code-unit
list. -/
def utf16Decode (bs : List Nat) : Option (List Nat) :=
  if bs.length % 2 ≠ 0 then none
  else
    let units := utf16Units bs
    if utf16Paired units then some units else none

/-- A decoded MFT record (`MFTEntry` in `src/ntfs/mft.py`). -/
structure MFTEntry where
  reference : Nat
  sequence : Nat
  base_reference : Nat
  flags : Nat
  used_size : Nat
  allocated_size : Nat
  attributes : List MFTAttribute
  deriving DecidableEq, Repr

/-- One parsed attribute record of the walk in `MFTEntry.from_bytes`
(`src/ntfs/mft.py` lines 128-159): the decoded attribute plus the
`attr_len` by which the loop advances.  `none` models a Python
exception (an out-of-range byte index or a failing UTF-16 decode). -/
def parseOneAttr (data : List Nat) (off : Nat) : Option (MFTAttribute × Nat) :=
  match byteAt data (off + 8), byteAt data (off + 9) with
  | some residentFlag, some nameLen =>
    match (if nameLen > 0 then
        match utf16Decode (bytesAt data (off + u16 data (off + 10)) (nameLen * 2)) with
        | some units => some (some units)
        | none => none
      else some none) with
    | none => none
    | some name =>
      let attrData :=
        if residentFlag = 0 then
          bytesAt data (off + u16 data (off + 20)) (u32 data (off + 16))
        else bytesAt data off (u32 data (off + 4))
      some (fromRawData (u32 data off) name (residentFlag = 0) attrData,
        u32 data (off + 4))
  | _, _ => none

/-- The attribute-enumeration loop of `MFTEntry.from_bytes`
(`src/ntfs/mft.py` lines 124-162), with explicit fuel because the
source loop `attr_offset += attr_len` does not always make progress.
`none` = fuel exhausted; `some (Except.error ())` = a Python exception
escaped the loop; `some (Except.ok attrs)` = the loop finished. -/
def parseAttrsAux (data : List Nat) (usedEnd : Nat) :
    Nat → Nat → List MFTAttribute → Option (Except Unit (List MFTAttribute))
  | fuel, off, acc =>
    if off ≥ usedEnd then some (Except.ok acc)
    else
      match fuel with
      | 0 => none
      | fuel + 1 =>
        if u32 data off = 0xFFFFFFFF then some (Except.ok acc)
        else
          match parseOneAttr data off with
          | none => some (Except.error ())
          | some (attr, attrLen) =>
            parseAttrsAux data usedEnd fuel (off + attrLen) (acc ++ [attr])

/-- `MFTEntry.from_bytes` (`src/ntfs/mft.py` lines 106-178), for the
`offset = 0` default used at every call site.  A loop exception maps
to `Result.err(INVALID_MFT)`; `none` again marks exhausted fuel
(i.e. the source loop would still be running). -/
def mftEntryFromBytes (data : List Nat) (fuel : Nat) : Option (Res MFTEntry) :=
  if bytesAt data 0 4 ≠ [70, 73, 76, 69] then some (Res.err .invalidMft)
  else
    match parseAttrsAux data (u32 data 24) fuel (u16 data 20) [] with
    | none => none
    | some (Except.error ()) => some (Res.err .invalidMft)
    | some (Except.ok attrs) =>
      some (Res.ok ⟨0, u16 data 16, u64 data 32, u16 data 22,
        u32 data 24, u32 data 28, attrs⟩)

/-- `MFTEntry.is_in_use` (`src/ntfs/mft.py`): flags bit 0. -/
def MFTEntry.isInUse (e : MFTEntry) : Bool := e.flags % 2 = 1

/-- `MFTEntry.is_directory` (`src/ntfs/mft.py`): flags bit 1. -/
def MFTEntry.isDirectory (e : MFTEntry) : Bool := e.flags / 2 % 2 = 1

/-- `MFTEntry.has_file_name` (`src/ntfs/mft.py` lines 186-191). -/
def MFTEntry.hasFileName (e : MFTEntry) : Bool :=
  e.attributes.any (fun a => a.type_id = 0x30)

/-- One opened segment of a split image: its contents and the current
file position of its stateful seek-then-read handle. -/
structure SegFile where
  contents : List Nat
  pos : Nat
  deriving DecidableEq, Repr

/-- Python `file.read(n)`: returns up to `n` bytes from the current
position and advances it. -/
def segRead (f : SegFile) (n : Nat) : List Nat × SegFile :=
  let bs := (f.contents.drop f.pos).take n
  (bs, ⟨f.contents, f.pos + bs.length⟩)

/-- The spill loop of `SplitImageFile.read` (`src/ntfs/split_volume.py`
lines 64-71): keep reading from subsequent segment handles — from
their current positions, the source never seeks them — until
`remaining` bytes are collected, a handle yields nothing, or the
segments run out. -/
def readCross : List SegFile → Nat → List Nat × List SegFile
  | [], _ => ([], [])
  | f :: rest, remaining =>
    if remaining = 0 then ([], f :: rest)
    else
      let d := segRead f remaining
      if d.1 = [] then ([], d.2 :: rest)
      else
        let ds := readCross rest (remaining - d.1.length)
        (d.1 ++ ds.1, d.2 :: ds.2)

/-- `SplitImageFile.read` (`src/ntfs/split_volume.py` lines 47-77).
The source selects the starting segment by dividing the absolute
offset by the size of the *first* segment file and seeks it to
`offset % first_size`; `none` models the `None` returns (index past
the open list, or the exception from an empty file list / a zero-size
first segment). -/
def splitRead (files : List SegFile) (offset size : Nat) :
    Option (List Nat) × List SegFile :=
  match hf : files with
  | [] => (none, files)
  | f0 :: _ =>
    let fileSize := f0.contents.length
    if fileSize = 0 then (none, files)
    else
      let fileIndex := offset / fileSize
      if hidx : fileIndex ≥ files.length then (none, files)
      else
        let fileOffset := offset % fileSize
        let target := files.get ⟨fileIndex, by omega⟩
        let d := segRead ⟨target.contents, fileOffset⟩ size
        let after := readCross (files.drop (fileIndex + 1)) (size - d.1.length)
        (some (d.1 ++ after.1), files.take fileIndex ++ d.2 :: after.2)

/-- Decoded boot-sector geometry (`NTFSBootSector` in
`src/ntfs/boot_sector.py`). -/
structure NTFSBootSector where
  bytes_per_sector : Nat
  sectors_per_cluster : Nat
  mft_lcn : Nat
  mft_record_size : Nat
  index_record_size : Nat
  serial_number : List Nat
  total_sectors : Nat
  deriving DecidableEq, Repr

/-- `NTFSBootSector.from_bytes` (`src/ntfs/boot_sector.py` lines
16-55): under-512-byte input and a failing NTFS tag both yield
`INVALID_BOOT_SECTOR`; all field reads are in range once the length
check passed. -/
def bootSectorFromBytes (data : List Nat) : Res NTFSBootSector :=
  if data.length < 512 then Res.err .invalidBootSector
  else if bytesAt data 3 4 ≠ [78, 84, 70, 83] then Res.err .invalidBootSector
  else
    Res.ok ⟨u16 data 0x0B, (byteAt data 0x0D).getD 0, u64 data 0x30,
      (byteAt data 0x40).getD 0, (byteAt data 0x44).getD 0,
      bytesAt data 0x48 8, u64 data 0x28⟩

/-- The MBR partition-table scan of `NTFSVolume.mount`
(`src/ntfs/volume.py` lines 156-163): the first of the four entries at
`0x1BE` whose type byte (entry offset +4) is `0x07` gives
`partition_offset = first_lba * 512`.  `Except.error ()` models the
`IndexError` on a short MBR buffer; `Except.ok none` means no NTFS
entry was found. -/
def scanPartitions (mbr : List Nat) : Except Unit (Option Nat) := do
  let mut found : Option Nat := none
  for i in [0, 1, 2, 3] do
    if found = none then
      let off := 0x1BE + i * 16
      match byteAt mbr (off + 4) with
      | none => throw ()
      | some t =>
        if t = 0x07 then
          found := some (u32 mbr (off + 8) * 512)
  return found

/-- `NTFSVolume.mount` (`src/ntfs/volume.py` lines 136-205), from a
successfully opened split image.  Both the `"No NTFS partition
found"` branch (line 166) and the mount-level `"Invalid NTFS
signature"` branch (line 181) return the `IO_ERROR` kind, as does the
catch-all handler for escaped exceptions; `INVALID_BOOT_SECTOR` can
only come out of `bootSectorFromBytes`. -/
def mount (files : List SegFile) : Res NTFSBootSector × List SegFile :=
  let r1 := splitRead files 0 512
  match r1.1 with
  | none => (Res.err .ioError, r1.2)
  | some mbr =>
    if mbr = [] then (Res.err .ioError, r1.2)
    else
      match scanPartitions mbr with
      | Except.error () => (Res.err .ioError, r1.2)
      | Except.ok none => (Res.err .ioError, r1.2)
      | Except.ok (some partitionOffset) =>
        let r2 := splitRead r1.2 partitionOffset 512
        match r2.1 with
        | none => (Res.err .ioError, r2.2)
        | some boot =>
          if boot = [] then (Res.err .ioError, r2.2)
          else if bytesAt boot 3 4 ≠ [78, 84, 70, 83] then
            (Res.err .ioError, r2.2)
          else (bootSectorFromBytes boot, r2.2)

/-- `NTFSVolume.read_mft_entry` (`src/ntfs/volume.py` lines 230-275)
on a cache miss, abstracted over the split-image read (`readAt`,
modelling `self.split_image.read`).  The raw 1024 bytes go straight
into `MFTEntry.from_bytes`: no USA fix-up is applied anywhere on the
path.  `none` again marks exhausted fuel inside the attribute walk. -/
def readMftEntry (readAt : Nat → Nat → Option (List Nat))
    (partitionOffset mftLcn spc bps : Nat) (entryNumber : Nat)
    (fuel : Nat) : Option (Res MFTEntry) :=
  let mftOffset := partitionOffset + mftLcn * spc * bps
  let offset := mftOffset + entryNumber * 1024
  match readAt offset 1024 with
  | none => some (Res.err .ioError)
  | some entryData =>
    if entryData = [] then some (Res.err .ioError)
    else
      match mftEntryFromBytes entryData fuel with
      | none => none
      | some (Res.err k) => some (Res.err k)
      | some (Res.ok e) => some (Res.ok { e with reference := entryNumber })

/-- Modelled from the spec: the USA fix-up verification that section
4.4 requires before decoding and that `read_mft_entry` omits.  For
each of the `usa_count - 1` covered 512-byte sectors the last two
bytes must equal the update sequence number (`u16` at `usa_offset`,
itself a `u16` at offset 4); `true` means some sector mismatches, so
the spec demands an `InvalidMft` failure. -/
def usaMismatch (data : List Nat) : Bool :=
  let usaOffset := u16 data 4
  let usaCount := u16 data 6
  let usn := u16 data usaOffset
  (List.range (usaCount - 1)).any (fun i => u16 data (512 * i + 510) ≠ usn)

/-- Python truthiness of an `Optional[str]`: `None` and the empty
string are falsy. -/
def truthy : Option (List Nat) → Bool
  | none => false
  | some l => !l.isEmpty

/-- A File View (`NTFSFile` in `src/ntfs/volume.py`). -/
structure NTFSFile where
  mft_entry : MFTEntry
  name : Option (List Nat)
  size : Nat
  is_directory : Bool
  creation_time : Option Nat
  modification_time : Option Nat
  deriving DecidableEq, Repr

/-- Mutable state threaded through `NTFSFile._parse_attributes`. -/
structure FVState where
  name : Option (List Nat)
  size : Nat
  ctime : Option Nat
  mtime : Option Nat
  deriving DecidableEq, Repr

/-- One iteration of `NTFSFile._parse_attributes` (`src/ntfs/volume.py`
lines 27-57).  The per-attribute `try` swallows a failing UTF-16
decode of a `$FILE_NAME` payload, leaving the state unchanged. -/
def fvStep (s : FVState) (attr : MFTAttribute) : FVState :=
  if attr.type_id = 0x30 then
    if truthy s.name then s
    else if truthy attr.name then { s with name := attr.name }
    else if attr.resident && attr.data.length > 66 then
      let nameLength := (byteAt attr.data 64).getD 0
      match utf16Decode (bytesAt attr.data 66 (nameLength * 2)) with
      | some units => { s with name := some units }
      | none => s
    else s
  else if attr.type_id = 0x80 then
    if truthy attr.name then s
    else if attr.resident then { s with size := attr.data.length }
    else { s with size := attr.data_size }
  else if attr.type_id = 0x10 then
    if attr.resident && attr.data.length ≥ 24 then
      { s with ctime := some (u64 attr.data 0), mtime := some (u64 attr.data 8) }
    else s
  else s

/-- `NTFSFile.__init__` (`src/ntfs/volume.py` lines 12-25): run
`_parse_attributes` over the record's attributes, then force `size` to
0 for directories. -/
def mkNTFSFile (e : MFTEntry) : NTFSFile :=
  let isDir := e.isDirectory
  let s := e.attributes.foldl fvStep ⟨none, 0, none, none⟩
  ⟨e, s.name, if isDir then 0 else s.size, isDir, s.ctime, s.mtime⟩

/-- The `$DATA` search loop shared by `read_data` and
`read_deleted_data` (`src/ntfs/volume.py` lines 62-68): the first
attribute of type 0x80 whose name is falsy. -/
def firstUnnamedData : List MFTAttribute → Option MFTAttribute
  | [] => none
  | a :: rest =>
    if a.type_id = 0x80 && !truthy a.name then some a
    else firstUnnamedData rest

/-- The run-concatenation loop of `NTFSFile.read_data`
(`src/ntfs/volume.py` lines 78-83): the first failing
`read_clusters` result is returned unchanged. -/
def readRuns (readClusters : Int → Nat → Res (List Nat)) :
    List DataRun → Res (List Nat)
  | [] => Res.ok []
  | r :: rest =>
    match readClusters r.cluster r.length with
    | Res.err k => Res.err k
    | Res.ok bs =>
      match readRuns readClusters rest with
      | Res.err k => Res.err k
      | Res.ok bs2 => Res.ok (bs ++ bs2)

/-- `NTFSFile.read_data` (`src/ntfs/volume.py` lines 59-88),
abstracted over `self.volume.read_clusters`.  No unnamed `$DATA`
yields `Result.ok(b'')`; a resident one is returned verbatim; a
non-resident one concatenates the run reads and truncates to the
attribute's `data_size`. -/
def readData (e : MFTEntry)
    (readClusters : Int → Nat → Res (List Nat)) : Res (List Nat) :=
  match firstUnnamedData e.attributes with
  | none => Res.ok []
  | some a =>
    if a.resident then Res.ok a.data
    else
      match readRuns readClusters a.data_runs with
      | Res.err k => Res.err k
      | Res.ok bs => Res.ok (bs.take a.data_size)

/-- `NTFSVolume.list_deleted_files` (`src/ntfs/volume.py` lines
540-555), abstracted over `self.read_mft_entry` (`rm`): scan records
0 to 99999, keep a File View for each record whose read decodes, whose
in-use bit is clear and which carries a `$FILE_NAME`; failed reads
contribute nothing. -/
def listDeletedFiles (rm : Nat → Res MFTEntry) : List NTFSFile :=
  (List.range 100000).foldl
    (fun acc i =>
      match rm i with
      | Res.ok e =>
        if !e.isInUse && e.hasFileName then acc ++ [mkNTFSFile e] else acc
      | Res.err _ => acc)
    []

/-- Modelled from the spec (C9): the recovery scan claimed by the
specification — one File View per record index whose decode succeeds
with the in-use bit clear and at least one `$FILE_NAME` attribute,
decode failures skipped.  To be compared with `listDeletedFiles`. -/
def deletedScanSpec (rm : Nat → Res MFTEntry) : List NTFSFile :=
  (List.range 100000).filterMap (fun i =>
    match rm i with
    | Res.ok e =>
      if !e.isInUse && e.hasFileName then some (mkNTFSFile e) else none
    | Res.err _ => none)

/-- Does a decoded name start with `'$'` (code unit 36)? -/
def startsDollar (s : List Nat) : Bool := s.head? = some 36

/-- The emission step shared textually by both walks: read the MFT
record behind the (masked) file reference and keep its File View when
the view's derived name is truthy (`src/ntfs/volume.py` lines
422-428 and 654-661). -/
def emitFile (rm : Nat → Res MFTEntry) (fileRef : Nat) : List NTFSFile :=
  match rm (fileRef % 2 ^ 48) with
  | Res.ok e =>
    let f := mkNTFSFile e
    if truthy f.name then [f] else []
  | Res.err _ => []

/-- The `$INDEX_ROOT` entry walk of `NTFSVolume._list_directory`
(`src/ntfs/volume.py` lines 390-433).  Note the layout this loop
actually uses: `entry_length` is a *u32 at entry offset +0* and the
file reference a *u64 at +8*; the walk stops on a zero length or an
entry crossing the buffer and never looks at a flags byte. -/
def rootWalkAux (rm : Nat → Res MFTEntry) (data : List Nat) :
    Nat → Nat → List NTFSFile
  | 0, _ => []
  | fuel + 1, off =>
    if off + 8 ≤ data.length then
      let entryLength := u32 data off
      if entryLength = 0 then []
      else if off + entryLength > data.length then []
      else
        let fileRef := u64 data (off + 8)
        let emitted :=
          if fileRef ≠ 0 then
            let fnOffset := off + 16
            if fnOffset + 66 ≤ data.length then
              let nameLength := (byteAt data (fnOffset + 64)).getD 0
              let nameOffset := fnOffset + 66
              if nameOffset + nameLength * 2 ≤ data.length then
                match utf16Decode (bytesAt data nameOffset (nameLength * 2)) with
                | none => []
                | some filename =>
                  if filename ≠ [46] && filename ≠ [46, 46] &&
                      !(startsDollar filename && fileRef ≤ 11) then
                    emitFile rm fileRef
                  else []
              else []
            else []
          else []
        emitted ++ rootWalkAux rm data fuel (off + entryLength)
    else []

/-- Wrapper with ample fuel (each iteration strictly advances the
offset, which stays at most `data.length`). -/
def rootWalk (rm : Nat → Res MFTEntry) (data : List Nat) (off : Nat) :
    List NTFSFile :=
  rootWalkAux rm data (data.length + 1) off

/-- The INDX-block entry walk of `NTFSVolume._parse_index_allocation`
(`src/ntfs/volume.py` lines 617-666): file reference u64 at +0,
`entry_length` u16 at +8, `key_length` u16 at +10, flags byte at +12;
stops on flags bit 0x02, zero length, or a crossing entry.  The
per-entry `try` swallows the `IndexError` when `fn_offset + 64` or
`+ 65` is out of range and any UTF-16 decode failure. -/
def allocWalkAux (rm : Nat → Res MFTEntry) (data : List Nat) :
    Nat → Nat → List NTFSFile
  | 0, _ => []
  | fuel + 1, off =>
    if off + 16 < data.length then
      let fileRef := u64 data off
      let entryLength := u16 data (off + 8)
      let keyLength := u16 data (off + 10)
      let flags := (byteAt data (off + 12)).getD 0
      if flags % 4 / 2 = 1 then []
      else if entryLength = 0 then []
      else if off + entryLength > data.length then []
      else
        let fnOffset := off + 16
        let emitted :=
          if fnOffset + keyLength ≤ data.length then
            match byteAt data (fnOffset + 64), byteAt data (fnOffset + 65) with
            | some nameLength, some _ =>
              let nameOffset := fnOffset + 66
              if nameOffset + nameLength * 2 ≤ data.length then
                match utf16Decode (bytesAt data nameOffset (nameLength * 2)) with
                | none => []
                | some filename =>
                  if !(startsDollar filename && fileRef ≤ 11) then
                    emitFile rm fileRef
                  else []
              else []
            | _, _ => []
          else []
        emitted ++ allocWalkAux rm data fuel (off + entryLength)
    else []

/-- Wrapper with ample fuel (each iteration strictly advances the
offset, which stays at most `data.length`). -/
def allocWalk (rm : Nat → Res MFTEntry) (data : List Nat) (off : Nat) :
    List NTFSFile :=
  allocWalkAux rm data (data.length + 1) off

/-- `NTFSVolume._parse_index_allocation` (`src/ntfs/volume.py` lines
581-674), abstracted over `read_mft_entry` and `read_clusters`: for
each data run read the clusters, skip blocks without the INDX tag
(and runs whose read fails), then walk the entries from
`24 + entries_offset`.  The USA fields at +4/+6 are read by the
source but never applied. -/
def parseIndexAllocation (rm : Nat → Res MFTEntry)
    (rc : Int → Nat → Res (List Nat)) (ia : MFTAttribute) : List NTFSFile :=
  ia.data_runs.foldl
    (fun files run =>
      match rc run.cluster run.length with
      | Res.err _ => files
      | Res.ok data =>
        if bytesAt data 0 4 ≠ [73, 78, 68, 88] then files
        else files ++ allocWalk rm data (24 + u32 data 24))
    []

/-- The last attribute of a given type wins, because the search loop
of `_list_directory` (lines 343-351) keeps overwriting its local. -/
def findLastAttr (t : Nat) (attrs : List MFTAttribute) : Option MFTAttribute :=
  (attrs.filter (fun a => a.type_id = t)).getLast?

/-- `NTFSVolume._list_directory` (`src/ntfs/volume.py` lines 333-447).
A resident `$INDEX_ROOT` shorter than 16 (or 32) bytes triggers the
early `return files`, which skips the `$INDEX_ALLOCATION` part as
well; otherwise the root entries start at `16 + entries_offset` and
the non-resident `$INDEX_ALLOCATION` files are appended. -/
def listDirectory (rm : Nat → Res MFTEntry)
    (rc : Int → Nat → Res (List Nat)) (dirEntry : MFTEntry) : List NTFSFile :=
  let iroot := findLastAttr 0x90 dirEntry.attributes
  let ialloc := findLastAttr 0xA0 dirEntry.attributes
  let withAlloc := fun (files1 : List NTFSFile) =>
    match ialloc with
    | some ia =>
      if !ia.resident then files1 ++ parseIndexAllocation rm rc ia else files1
    | none => files1
  match iroot with
  | some ir =>
    if ir.resident then
      if ir.data.length < 16 then []
      else if ir.data.length < 32 then []
      else withAlloc (rootWalk rm ir.data (16 + u32 ir.data 16))
    else withAlloc []
  | none => withAlloc []

/-! ### Concrete inputs used by the counterexamples and witnesses -/

/-- Raw bytes of a non-resident attribute: `runs_offset` (u16 at 0x20)
is 64, the declared stream size (u64 at 0x30) is 5000, and the run
list at offset 64 is `01 05 | 11 02 03 | 00` — a sparse descriptor
(`off_size = 0`, five clusters) followed by an ordinary one (two
clusters, delta +3) and the terminator. -/
def c1data : List Nat :=
  List.replicate 32 0 ++ [64, 0] ++ List.replicate 14 0 ++
  [136, 19, 0, 0, 0, 0, 0, 0] ++ List.replicate 8 0 ++
  [1, 5, 17, 2, 3, 0]

/-- Raw data-run bytes `21 02 00 03 | 11 01 FF | 00`: two clusters at
delta +0x0300, then one cluster at delta −1. -/
def c1good : List Nat := [33, 2, 0, 3, 17, 1, 255, 0]

/-- A 1024-byte MFT record image: FILE tag, `first_attr_offset` 56,
`used_size` 1024, and at offset 56 a non-sentinel attribute header
(type 1) whose `length` field is 0 — the attribute walk of the source
never advances past it. -/
def c10data : List Nat :=
  [70, 73, 76, 69] ++ List.replicate 16 0 ++ [56, 0, 0, 0] ++
  [0, 4, 0, 0] ++ List.replicate 28 0 ++ [1, 0, 0, 0] ++
  List.replicate 964 0

/-- A 40-byte record image with FILE tag, `used_size` 30 and
`first_attr_offset` 257 (past `used_size`, so the walk exits at
once); every u32 window read inside `used_size` is nonzero. -/
def c10term : List Nat :=
  [70, 73, 76, 69] ++ List.replicate 16 1 ++ [1, 1] ++ [1, 1] ++
  [30, 0, 0, 0] ++ List.replicate 12 1

/-- A 1024-byte MFT record image with FILE tag, `used_size` 2000,
`allocated_size` 100, and the attribute sentinel right at
`first_attr_offset` 56: it violates
`used_size ≤ allocated_size ≤ 1024` twice over. -/
def c8data : List Nat :=
  [70, 73, 76, 69] ++ List.replicate 16 0 ++ [56, 0, 0, 0] ++
  [208, 7, 0, 0] ++ [100, 0, 0, 0] ++ List.replicate 24 0 ++
  [255, 255, 255, 255] ++ List.replicate 964 0

/-- A non-resident attribute image declaring a 5000-byte stream
(u64 at 0x30) whose run list at `runs_offset = 64` holds a single
one-cluster run (`11 01 01 00`). -/
def c4raw : List Nat :=
  List.replicate 32 0 ++ [64, 0] ++ List.replicate 14 0 ++
  [136, 19, 0, 0, 0, 0, 0, 0] ++ List.replicate 8 0 ++ [17, 1, 1, 0]

/-- Like `c4raw` but declaring a 300-byte stream, which one 512-byte
cluster covers. -/
def c4raw2 : List Nat :=
  List.replicate 32 0 ++ [64, 0] ++ List.replicate 14 0 ++
  [44, 1, 0, 0, 0, 0, 0, 0] ++ List.replicate 8 0 ++ [17, 1, 1, 0]

/-- A cluster reader that always succeeds with `count * 512` bytes of
filler, modelling `read_clusters` on a 512-byte-cluster volume. -/
def c4rc : Int → Nat → Res (List Nat) :=
  fun _ n => Res.ok (List.replicate (n * 512) 7)

/-- Record whose unnamed `$DATA` is the non-resident `c4raw`. -/
def c4entry : MFTEntry := ⟨7, 1, 0, 1, 100, 200, [fromRawData 128 none false c4raw]⟩

/-- Record whose unnamed `$DATA` is the non-resident `c4raw2`. -/
def c4entry2 : MFTEntry := ⟨8, 1, 0, 1, 100, 200, [fromRawData 128 none false c4raw2]⟩

/-- Record with a resident unnamed `$DATA` holding three bytes. -/
def c4resEntry : MFTEntry :=
  ⟨9, 1, 0, 1, 100, 200, [⟨128, none, true, [1, 2, 3], [], 3⟩]⟩

/-- Record with no `$DATA` attribute at all. -/
def c4noDataEntry : MFTEntry := ⟨10, 1, 0, 1, 100, 200, [⟨48, none, true, [], [], 0⟩]⟩

/-- A single-segment image of 600 zero bytes: its MBR holds no
partition entry of type 0x07. -/
def c7img1 : List SegFile := [⟨List.replicate 600 0, 0⟩]

/-- Image contents with one type-0x07 MBR entry at 0x1BE pointing to
LBA 1 (byte offset 512), where no NTFS boot signature lives. -/
def c7img2c : List Nat :=
  List.replicate 450 0 ++ [7, 0, 0, 0] ++ [1, 0, 0, 0] ++ List.replicate 566 0

/-- The image `c7img2c` as a freshly opened single-segment file. -/
def c7img2 : List SegFile := [⟨c7img2c, 0⟩]

/-- The first 512 bytes of `c7img2c` (its MBR). -/
def c7mbr2 : List Nat :=
  List.replicate 450 0 ++ [7, 0, 0, 0] ++ [1, 0, 0, 0] ++ List.replicate 54 0

/-- A fresh two-segment image with segment sizes 5 and 10
(15 bytes of image in total). -/
def c5imgUneq : List SegFile :=
  [⟨(List.range 5).map (fun i => i + 1), 0⟩,
   ⟨(List.range 10).map (fun i => i + 10), 0⟩]

/-- A fresh two-segment image with two equal 10-byte segments. -/
def c5eq : List SegFile :=
  [⟨List.replicate 10 1, 0⟩, ⟨List.replicate 10 2, 0⟩]

/-- A 1024-byte MFT record with FILE tag, `usa_offset = 48`,
`usa_count = 3` and update sequence number `0xABAB`, while both
512-byte sector ends hold `00 00`: the USA check of spec section 4.4
fails on every sector.  The attribute sentinel sits at offset 56. -/
def c2data : List Nat :=
  [70, 73, 76, 69] ++ [48, 0] ++ [3, 0] ++ List.replicate 12 0 ++
  [56, 0] ++ [0, 0] ++ [0, 4, 0, 0] ++ List.replicate 20 0 ++
  [171, 171] ++ [1, 0, 2, 0] ++ [0, 0] ++ [255, 255, 255, 255] ++
  List.replicate 964 0

/-- A split-image read that always hands back `c2data`. -/
def c2readAt : Nat → Nat → Option (List Nat) := fun _ _ => some c2data

/-- A 512-byte INDX block with `usa_offset = 40`, `usa_count = 2`,
update sequence number `0xCDCD` and a mismatching sector end, holding
one index entry (file reference 100, name "A") followed by a
zero-length terminator entry. -/
def c2indx : List Nat :=
  [73, 78, 68, 88, 40, 0, 2, 0] ++ List.replicate 16 0 ++
  [40, 0, 0, 0] ++ List.replicate 12 0 ++ [205, 205] ++
  List.replicate 22 0 ++ [100, 0, 0, 0, 0, 0, 0, 0] ++ [88, 0] ++
  [80, 0] ++ [0] ++ List.replicate 3 0 ++ List.replicate 64 0 ++
  [1, 1] ++ [65, 0] ++ List.replicate 364 0

/-- A resident `$FILE_NAME` payload carrying the one-character name
"B" at the standard offsets (length byte at 64, name at 66). -/
def c2fn : List Nat := List.replicate 64 0 ++ [1, 0] ++ [66, 0]

/-- The MFT record behind file reference 100 of `c2indx`. -/
def c2entry100 : MFTEntry := ⟨100, 1, 0, 1, 0, 0, [⟨48, none, true, c2fn, [], 68⟩]⟩

/-- MFT reader returning `c2entry100` for index 100. -/
def c2rm : Nat → Res MFTEntry :=
  fun i => if i = 100 then Res.ok c2entry100 else Res.err .notFound

/-- Cluster reader handing back the INDX block `c2indx` for LCN 1. -/
def c2rcIndx : Int → Nat → Res (List Nat) :=
  fun c _ => if c = 1 then Res.ok c2indx else Res.err .ioError

/-- An `$INDEX_ALLOCATION` attribute with a single one-cluster run at
LCN 1. -/
def c2ia : MFTAttribute := ⟨160, none, false, [], [⟨1, 1⟩], 0⟩

/-- A resident `$INDEX_ROOT` payload (116 bytes): entries start at 20
and the single 96-byte entry carries file reference `2^48` (MFT index
0, sequence 1) with the embedded `$FILE_NAME` name `$MFT`. -/
def c3root : List Nat :=
  List.replicate 16 0 ++ [4, 0, 0, 0] ++ [96, 0, 0, 0] ++ [0, 0, 0, 0] ++
  [0, 0, 0, 0, 0, 0, 1, 0] ++ List.replicate 64 0 ++ [4, 0] ++
  [36, 0, 77, 0, 70, 0, 84, 0] ++ List.replicate 6 0

/-- Like `c3root` but with file reference 3 (sequence bits zero). -/
def c3rootLow : List Nat :=
  List.replicate 16 0 ++ [4, 0, 0, 0] ++ [96, 0, 0, 0] ++ [0, 0, 0, 0] ++
  [3, 0, 0, 0, 0, 0, 0, 0] ++ List.replicate 64 0 ++ [4, 0] ++
  [36, 0, 77, 0, 70, 0, 84, 0] ++ List.replicate 6 0

/-- A resident `$FILE_NAME` payload naming the record `$MFT`. -/
def c3fn0 : List Nat :=
  List.replicate 64 0 ++ [4, 0] ++ [36, 0, 77, 0, 70, 0, 84, 0]

/-- MFT record 0 (`$MFT` itself), in use, named by `c3fn0`. -/
def c3mft0 : MFTEntry := ⟨0, 1, 0, 1, 0, 0, [⟨48, none, true, c3fn0, [], 74⟩]⟩

/-- MFT reader resolving index 0 to `c3mft0`. -/
def c3rm : Nat → Res MFTEntry :=
  fun i => if i = 0 then Res.ok c3mft0 else Res.err .notFound

/-- A cluster reader that always fails (no INDX blocks involved). -/
def c3rcErr : Int → Nat → Res (List Nat) := fun _ _ => Res.err .ioError

/-- A directory record whose only index attribute is the resident
`$INDEX_ROOT` `c3root`. -/
def c3dir : MFTEntry := ⟨5, 1, 0, 3, 0, 0, [⟨144, none, true, c3root, [], 116⟩]⟩

/-- An INDX block like `c2indx` but with file reference 3 and the
one-character name `$`. -/
def c3indxLow : List Nat :=
  [73, 78, 68, 88, 40, 0, 2, 0] ++ List.replicate 16 0 ++
  [40, 0, 0, 0] ++ List.replicate 12 0 ++ [205, 205] ++
  List.replicate 22 0 ++ [3, 0, 0, 0, 0, 0, 0, 0] ++ [88, 0] ++
  [80, 0] ++ [0] ++ List.replicate 3 0 ++ List.replicate 64 0 ++
  [1, 1] ++ [36, 0] ++ List.replicate 364 0

/-- A deleted (in-use bit clear) record named `$MFT` with MFT index 4. -/
def c3delEntry : MFTEntry := ⟨4, 1, 0, 0, 0, 0, [⟨48, none, true, c3fn0, [], 74⟩]⟩

/-- MFT reader resolving index 4 to the deleted record `c3delEntry`. -/
def c3rmDel : Nat → Res MFTEntry :=
  fun i => if i = 4 then Res.ok c3delEntry else Res.err .notFound

/-- Modelled from the spec (C6): the claimed *shared* index-entry
shape — file reference u64 at entry offset +0, `entry_length` u16 at
+8, flags u8 at +12 — walked with the claimed stop conditions (flags
bit 0x02, zero length, entry crossing the container), yielding the
`(file_reference, entry_length)` pairs.  To be compared with the
walks the source actually performs. -/
def sharedEntriesAuxSpec (data : List Nat) : Nat → Nat → List (Nat × Nat)
  | 0, _ => []
  | fuel + 1, off =>
    if off + 16 ≤ data.length then
      let ref := u64 data off
      let len := u16 data (off + 8)
      let flags := (byteAt data (off + 12)).getD 0
      if flags % 4 / 2 = 1 then []
      else if len = 0 then []
      else if off + len > data.length then []
      else (ref, len) :: sharedEntriesAuxSpec data fuel (off + len)
    else []

/-- Wrapper for `sharedEntriesAuxSpec` with ample fuel. -/
def sharedEntriesSpec (data : List Nat) (off : Nat) : List (Nat × Nat) :=
  sharedEntriesAuxSpec data (data.length + 1) off

/-- A resident `$INDEX_ROOT` payload whose single entry (at offset
20) has byte 2 at entry offset +12 — under the claimed shared shape
that is a set "last entry" flag, so the claimed walk stops at once;
under the layout the source really uses, +12 is just part of the file
reference read at +8. -/
def c6root : List Nat :=
  List.replicate 16 0 ++ [4, 0, 0, 0] ++ [96, 0, 0, 0] ++ [0, 0, 0, 0] ++
  [7, 0, 0, 0, 2, 0, 0, 0] ++ List.replicate 64 0 ++ [1, 0] ++
  [88, 0] ++ List.replicate 12 0

/-- A resident `$FILE_NAME` payload naming the record `X`. -/
def c6fnX : List Nat := List.replicate 64 0 ++ [1, 0] ++ [88, 0]

/-- The record behind the reference `7 + 2 * 2^32` decoded by the
source from `c6root`'s entry. -/
def c6mft : MFTEntry :=
  ⟨8589934599, 1, 0, 1, 0, 0, [⟨48, none, true, c6fnX, [], 68⟩]⟩

/-- MFT reader resolving index `7 + 2 * 2^32` to `c6mft`. -/
def c6rm : Nat → Res MFTEntry :=
  fun i => if i = 8589934599 then Res.ok c6mft else Res.err .notFound

/-- A directory record carrying the resident `$INDEX_ROOT` `c6root`. -/
def c6dir : MFTEntry := ⟨5, 1, 0, 3, 0, 0, [⟨144, none, true, c6root, [], 116⟩]⟩

/-! ### Theorems -/

/-- Shifting the running LCN accumulator shifts every emitted cluster
number by the same amount and changes nothing else: the decoder
really keeps a running cumulative LCN. -/
theorem parseRunsAux_shift (data : List Nat) (d : Int) :
    ∀ fuel off c, parseRunsAux data fuel off (c + d) =
      ((parseRunsAux data fuel off c).1.map
        (fun r => ⟨r.cluster + d, r.length⟩),
       (parseRunsAux data fuel off c).2) := by
  intro fuel
  induction fuel with
  | zero => intro off c; rfl
  | succ fuel ih =>
    intro off c
    simp only [parseRunsAux]
    by_cases h1 : off ≥ data.length
    · simp [h1]
    · simp only [if_neg h1]
      by_cases h2 : (byteAt data off).getD 0 = 0
      · simp [h2]
      · simp only [if_neg h2]
        by_cases h3 : off + 1 + (byteAt data off).getD 0 % 16 +
            (byteAt data off).getD 0 / 16 % 16 > data.length
        · simp [h3]
        · simp only [if_neg h3]
          by_cases h4 : (byteAt data off).getD 0 / 16 % 16 = 0
          · simp [h4]
          · simp only [if_neg h4]
            generalize leSigned (bytesAt data (off + 1 + (byteAt data off).getD 0 % 16)
              ((byteAt data off).getD 0 / 16 % 16)) = δ
            have e : c + d + δ = c + δ + d := by ring
            rw [e, ih]
            simp

/-- A successful `byteAt` pins the index below the length. -/
theorem byteAt_lt_length {data : List Nat} {i b : Nat}
    (h : byteAt data i = some b) : i < data.length := by
  simpa [byteAt] using List.get?_eq_some.mp h |>.1

/-- C1, counterexample.  `c1data` carries a sparse data-run
descriptor (`off_size = 0`, length 5) at `runs_offset = 64` with a
further ordinary descriptor behind it, and declares a 5000-byte
stream; the claim says the decoder emits `(lcn = -1, length = 5)` and
keeps going, but `MFTAttribute.from_raw_data` decodes *no* runs at
all for this attribute and leaves `data_size` at 0 (the
`lcn_bytes[-1]` access raises and run parsing is abandoned). -/
theorem C1_counterexample :
    u16 c1data 32 = 64 ∧
    (byteAt c1data 64).getD 0 = 1 ∧
    leNat (bytesAt c1data 48 8) = 5000 ∧
    (fromRawData 128 none false c1data).data_runs = [] ∧
    (fromRawData 128 none false c1data).data_size = 0 := by
  refine ⟨by decide, by decide, by decide, by decide, by decide⟩

/-- C1, amended.  The data-run decoder does keep a running cumulative
LCN (first conjunct: shifting the accumulator shifts every decoded
cluster). But a header with `off_size = 0` aborts the loop with an
exception — no sparse `(lcn = -1)` run is emitted and the runs
decoded so far are kept with `data_size` left 0 (second conjunct),
and a descriptor with `len_size = 0` under a nonzero header byte is
decoded as a run of length 0, not rejected (third conjunct). -/
theorem C1_data_run_decoder (data : List Nat) (off : Nat) (c d : Int)
    (header : Nat) :
    (parseRunsLoop data off (c + d) =
      ((parseRunsLoop data off c).1.map
        (fun r => ⟨r.cluster + d, r.length⟩),
       (parseRunsLoop data off c).2)) ∧
    (byteAt data off = some header → header ≠ 0 → header / 16 % 16 = 0 →
      off + 1 + header % 16 ≤ data.length →
      parseRunsLoop data off c = ([], true)) ∧
    (byteAt data off = some header → header % 16 = 0 → header / 16 % 16 ≠ 0 →
      off + 1 + header / 16 % 16 ≤ data.length →
      ∃ rest ab, parseRunsLoop data off c =
        (⟨c + leSigned (bytesAt data (off + 1) (header / 16 % 16)), 0⟩ :: rest, ab)) := by
  refine ⟨parseRunsAux_shift data d _ off c, ?_, ?_⟩
  · intro hb hnz hoffs hbound
    have hlt : off < data.length := byteAt_lt_length hb
    simp only [parseRunsLoop, parseRunsAux, hb, Option.getD_some]
    rw [if_neg (by omega), if_neg hnz, if_neg (by omega), if_pos hoffs]
  · intro hb hlen hoffs hbound
    have hlt : off < data.length := byteAt_lt_length hb
    refine ⟨(parseRunsAux data data.length
        (off + 1 + header % 16 + header / 16 % 16)
        (c + leSigned (bytesAt data (off + 1) (header / 16 % 16)))).1,
      (parseRunsAux data data.length
        (off + 1 + header % 16 + header / 16 % 16)
        (c + leSigned (bytesAt data (off + 1) (header / 16 % 16)))).2, ?_⟩
    simp only [parseRunsLoop, parseRunsAux, hb, Option.getD_some]
    rw [if_neg (by omega), if_neg (by omega), if_neg (by omega), if_neg hoffs]
    simp [hlen, bytesAt, leNat]

/-- C1, witness: the three conjuncts of `C1_data_run_decoder`
discharged at concrete inputs — shifting the accumulator by 5 on
`c1good`, the aborting sparse descriptor `[1, 5]`, and the
`len_size = 0` descriptor `[16, 3]`. -/
theorem C1_data_run_decoder_witness :
    (parseRunsLoop c1good 0 (0 + 5) =
      ((parseRunsLoop c1good 0 0).1.map
        (fun r => ⟨r.cluster + 5, r.length⟩), (parseRunsLoop c1good 0 0).2)) ∧
    parseRunsLoop [1, 5] 0 0 = ([], true) ∧
    (∃ rest ab, parseRunsLoop [16, 3] 0 0 =
      (⟨(0 : Int) + leSigned (bytesAt [16, 3] 1 (16 / 16 % 16)), 0⟩ :: rest, ab)) :=
  ⟨(C1_data_run_decoder c1good 0 0 5 0).1,
   (C1_data_run_decoder [1, 5] 0 0 0 1).2.1 rfl (by decide) (by decide) (by decide),
   (C1_data_run_decoder [16, 3] 0 0 0 16).2.2 rfl (by decide) (by decide) (by decide)⟩

/-- The attribute walk on `c10data` never finishes: whatever the fuel,
one more iteration is always needed, because the zero-length attribute
header at offset 56 keeps `attr_offset` stuck. -/
theorem c10aux : ∀ fuel acc, parseAttrsAux c10data 1024 fuel 56 acc = none
  | 0, _ => rfl
  | fuel + 1, acc => by
    have h56 : ¬ (56 : Nat) ≥ 1024 := by decide
    have hone : parseOneAttr c10data 56 = some (⟨1, none, true, [], [], 0⟩, 0) := by
      decide
    simp only [parseAttrsAux, if_neg h56, hone]
    simpa using c10aux fuel (acc ++ [⟨1, none, true, [], [], 0⟩])

/-- Decoding `c10data` does not finish at any fuel value: the
1024-byte record's attribute at offset 56 declares length 0, so the
source loop `attr_offset += attr_len` never advances. -/
theorem c10never : ∀ fuel, mftEntryFromBytes c10data fuel = none := by
  intro fuel
  have e24 : u32 c10data 24 = 1024 := by decide
  have e20 : u16 c10data 20 = 56 := by decide
  have hsig : ¬ bytesAt c10data 0 4 ≠ [70, 73, 76, 69] := by decide
  simp only [mftEntryFromBytes, if_neg hsig, e24, e20, c10aux fuel []]

/-- C10, counterexample.  The claim says MFT record decoding
terminates for every finite 1024-byte input, including an attribute
header with a zero length field; on `c10data` the walk is still
unfinished after a million steps, and indeed after a billion — by
`c10never`, no amount of fuel ever completes it. -/
theorem C10_counterexample :
    mftEntryFromBytes c10data 1000000 = none ∧
    mftEntryFromBytes c10data (10 ^ 9) = none :=
  ⟨c10never 1000000, c10never (10 ^ 9)⟩

/-- The advance of the attribute walk is the u32 `length` field at
header offset +4, whatever else the attribute contains. -/
theorem parseOneAttr_len {data : List Nat} {off : Nat} {p : MFTAttribute × Nat}
    (h : parseOneAttr data off = some p) : p.2 = u32 data (off + 4) := by
  unfold parseOneAttr at h
  split at h
  · split at h
    · exact absurd h (by simp)
    · simp only [Option.some.injEq] at h
      rw [← h]
  · exact absurd h (by simp)

/-- When every `length` field readable inside `used_size` is nonzero,
the attribute walk consumes at most one fuel unit per byte of
`used_size` and always returns. -/
theorem parseAttrsAux_some (data : List Nat) (usedEnd : Nat) :
    ∀ fuel off acc, usedEnd - off ≤ fuel →
      (∀ o, o < usedEnd → 1 ≤ u32 data (o + 4)) →
      parseAttrsAux data usedEnd fuel off acc ≠ none := by
  intro fuel
  induction fuel with
  | zero =>
    intro off acc hf H
    have hoff : off ≥ usedEnd := by omega
    simp [parseAttrsAux, hoff]
  | succ fuel ih =>
    intro off acc hf H
    simp only [parseAttrsAux]
    by_cases h1 : off ≥ usedEnd
    · simp [h1]
    · simp only [if_neg h1]
      by_cases h2 : u32 data off = 4294967295
      · simp [h2]
      · simp only [if_neg h2]
        cases hp : parseOneAttr data off with
        | none => simp
        | some p =>
          obtain ⟨attr, alen⟩ := p
          have hl : (⟨attr, alen⟩ : MFTAttribute × Nat).2 = u32 data (off + 4) :=
            parseOneAttr_len hp
          have h1a : 1 ≤ alen := by
            have := H off (by omega)
            simpa [← hl] using this
          exact ih (off + alen) (acc ++ [attr]) (by omega) H

/-- C10, amended.  Decoding does terminate — reaching the sentinel,
walking past `used_size`, or failing — provided every attribute
`length` field readable inside `used_size` is nonzero; a zero length
field under a non-sentinel in-bounds header instead loops forever
(see the counterexample). -/
theorem C10_termination (data : List Nat) (fuel : Nat)
    (h1 : u32 data 24 ≤ fuel)
    (H : ∀ o, o < u32 data 24 → 1 ≤ u32 data (o + 4)) :
    mftEntryFromBytes data fuel ≠ none := by
  unfold mftEntryFromBytes
  by_cases hsig : bytesAt data 0 4 ≠ [70, 73, 76, 69]
  · simp [hsig]
  · rw [if_neg hsig]
    have hne := parseAttrsAux_some data (u32 data 24) fuel (u16 data 20) []
      (by omega) H
    cases hp : parseAttrsAux data (u32 data 24) fuel (u16 data 20) [] with
    | none => exact absurd hp hne
    | some x => cases x <;> simp

/-- C10, witness: `c10term` has `used_size` 30 and only nonzero
length windows inside it, and its decode indeed completes. -/
theorem C10_termination_witness : mftEntryFromBytes c10term 30 ≠ none :=
  C10_termination c10term 30 (by decide) (by decide)

set_option maxRecDepth 8192 in
/-- C8, counterexample.  `c8data` is a 1024-byte record with the FILE
tag whose header declares `used_size = 2000` and
`allocated_size = 100` — violating `used_size ≤ allocated_size ≤
1024` twice — yet `MFTEntry.from_bytes` returns it as a successful
decode: the source never validates the two size fields. -/
theorem C8_counterexample :
    c8data.length = 1024 ∧
    mftEntryFromBytes c8data 1024 =
      some (Res.ok ⟨0, 0, 0, 0, 2000, 100, []⟩) ∧
    ¬ ((2000 : Nat) ≤ 100 ∧ (100 : Nat) ≤ 1024) := by
  refine ⟨by decide, by decide, by decide⟩

/-- C8, amended.  What every successfully decoded record does
satisfy: it begins with the FILE tag, and its `used_size` /
`allocated_size` are the u32 header fields at offsets 24 and 28 —
decoded but never validated against each other or against 1024. -/
theorem C8_signature (data : List Nat) (fuel : Nat) (r : MFTEntry)
    (h : mftEntryFromBytes data fuel = some (Res.ok r)) :
    bytesAt data 0 4 = [70, 73, 76, 69] ∧
    r.used_size = u32 data 24 ∧ r.allocated_size = u32 data 28 := by
  unfold mftEntryFromBytes at h
  by_cases hsig : bytesAt data 0 4 ≠ [70, 73, 76, 69]
  · rw [if_pos hsig] at h
    exact absurd h (by simp)
  · rw [if_neg hsig] at h
    refine ⟨not_not.mp hsig, ?_, ?_⟩ <;>
    · cases hp : parseAttrsAux data (u32 data 24) fuel (u16 data 20) [] with
      | none => rw [hp] at h; exact absurd h (by simp)
      | some x =>
        cases x with
        | error e => rw [hp] at h; exact absurd h (by simp)
        | ok attrs =>
          rw [hp] at h
          simp only [Option.some.injEq, Res.ok.injEq] at h
          subst h
          rfl

set_option maxRecDepth 8192 in
/-- C8, witness: `C8_signature` discharged on the concrete record
`c8data`. -/
theorem C8_signature_witness :
    bytesAt c8data 0 4 = [70, 73, 76, 69] ∧
    (2000 : Nat) = u32 c8data 24 ∧ (100 : Nat) = u32 c8data 28 :=
  C8_signature c8data 1024 ⟨0, 0, 0, 0, 2000, 100, []⟩ (by decide)

/-- The recovery loop written with an accumulator equals the
filter-map over the scanned range. -/
theorem listDeletedFiles_eq (rm : Nat → Res MFTEntry) :
    listDeletedFiles rm = deletedScanSpec rm := by
  have gen : ∀ (g : Nat → Option NTFSFile) (l : List Nat) (acc : List NTFSFile),
      l.foldl (fun a i => a ++ (g i).toList) acc = acc ++ l.filterMap g := by
    intro g l
    induction l with
    | nil => intro acc; simp
    | cons i t ih =>
      intro acc
      cases hg : g i <;> simp [hg, ih, List.filterMap_cons]
  have hstep : (fun (acc : List NTFSFile) (i : Nat) =>
      match rm i with
      | Res.ok e =>
        if !e.isInUse && e.hasFileName then acc ++ [mkNTFSFile e] else acc
      | Res.err _ => acc) =
      (fun a i => a ++ ((fun i =>
        match rm i with
        | Res.ok e =>
          if !e.isInUse && e.hasFileName then some (mkNTFSFile e) else none
        | Res.err _ => none) i).toList) := by
    funext a i
    cases hr : rm i with
    | ok e =>
      by_cases hu : (!e.isInUse && e.hasFileName) = true
      · simp [hr, hu]
      · simp [hr, hu]
    | err k => simp [hr]
  unfold listDeletedFiles deletedScanSpec
  rw [hstep, gen, List.nil_append]

/-- C9, confirmed.  The recovery scan is exactly the claimed filter:
one File View per record index in `0..100000` whose read succeeds
with the in-use bit clear and a `$FILE_NAME` attribute present;
failed decodes contribute nothing and do not abort the scan. -/
theorem C9_recovery_scan (rm : Nat → Res MFTEntry) :
    listDeletedFiles rm = deletedScanSpec rm :=
  listDeletedFiles_eq rm

set_option maxRecDepth 8192 in
/-- C4, counterexample.  `c4entry`'s unnamed non-resident `$DATA`
declares `content_size = 5000` but its run list covers a single
512-byte cluster; with every cluster read succeeding, `read_data`
returns 512 bytes, not the "exactly content_size bytes" the claim
promises. -/
theorem C4_counterexample :
    (fromRawData 128 none false c4raw).data_size = 5000 ∧
    readData c4entry c4rc = Res.ok (List.replicate 512 7) ∧
    (List.replicate 512 7).length = 512 ∧ (512 : Nat) ≠ 5000 := by
  refine ⟨by decide, by decide, by decide, by decide⟩

/-- Concatenating successful run reads yields the sum of the per-run
byte counts. -/
theorem readRuns_ok (rc : Int → Nat → Res (List Nat)) (cb : Nat) :
    ∀ runs : List DataRun,
      (∀ r ∈ runs, ∃ bs, rc r.cluster r.length = Res.ok bs ∧
        bs.length = r.length * cb) →
      ∃ bs, readRuns rc runs = Res.ok bs ∧
        bs.length = (runs.map (fun r => r.length * cb)).sum := by
  intro runs
  induction runs with
  | nil => intro _; exact ⟨[], rfl, by simp⟩
  | cons r t ih =>
    intro H
    obtain ⟨bs, hbs, hlen⟩ := H r (by simp)
    obtain ⟨bs2, hbs2, hlen2⟩ := ih (fun q hq => H q (by simp [hq]))
    refine ⟨bs ++ bs2, ?_, by simp [hlen, hlen2]⟩
    unfold readRuns
    rw [hbs, hbs2]

/-- C4, amended.  `read_data` returns the resident unnamed `$DATA`
verbatim, an empty byte string as a success when there is no unnamed
`$DATA`, and for the non-resident case the concatenated run reads
truncated to `content_size` — which is exactly `content_size` bytes
when the decoded runs cover at least `content_size` bytes (and fewer
when they do not, as the counterexample shows). -/
theorem C4_read_data (e : MFTEntry) (rc : Int → Nat → Res (List Nat)) (cb : Nat) :
    (firstUnnamedData e.attributes = none → readData e rc = Res.ok []) ∧
    (∀ a, firstUnnamedData e.attributes = some a → a.resident = true →
      readData e rc = Res.ok a.data) ∧
    (∀ a, firstUnnamedData e.attributes = some a → a.resident = false →
      (∀ r ∈ a.data_runs, ∃ bs, rc r.cluster r.length = Res.ok bs ∧
        bs.length = r.length * cb) →
      a.data_size ≤ (a.data_runs.map (fun r => r.length * cb)).sum →
      ∃ l, readData e rc = Res.ok l ∧ l.length = a.data_size) := by
  refine ⟨?_, ?_, ?_⟩
  · intro h; unfold readData; rw [h]
  · intro a ha hr; unfold readData; rw [ha]; simp [hr]
  · intro a ha hr H hcov
    obtain ⟨bs, hbs, hlen⟩ := readRuns_ok rc cb a.data_runs H
    refine ⟨bs.take a.data_size, ?_, ?_⟩
    · unfold readData; rw [ha]; simp [hr, hbs]
    · rw [List.length_take, hlen]
      omega

set_option maxRecDepth 8192 in
/-- C4, witness: the three branches of `C4_read_data` discharged on
records with no `$DATA`, a resident `$DATA`, and a fully covered
non-resident `$DATA`. -/
theorem C4_read_data_witness :
    readData c4noDataEntry c4rc = Res.ok [] ∧
    readData c4resEntry c4rc = Res.ok [1, 2, 3] ∧
    (∃ l, readData c4entry2 c4rc = Res.ok l ∧
      l.length = (fromRawData 128 none false c4raw2).data_size) := by
  refine ⟨(C4_read_data c4noDataEntry c4rc 512).1 (by decide),
    (C4_read_data c4resEntry c4rc 512).2.1 ⟨128, none, true, [1, 2, 3], [], 3⟩
      (by decide) (by decide), ?_⟩
  refine (C4_read_data c4entry2 c4rc 512).2.2 (fromRawData 128 none false c4raw2)
    (by decide) (by decide) ?_ (by decide)
  intro r hr
  have hre : r = ⟨1, 1⟩ := by
    have hd : (fromRawData 128 none false c4raw2).data_runs = [⟨1, 1⟩] := by decide
    rw [hd] at hr
    simpa using hr
  subst hre
  exact ⟨List.replicate 512 7, rfl, by decide⟩

set_option maxRecDepth 8192 in
/-- C7, counterexample.  Both failures the claim attributes to the
`InvalidBootSector` kind actually carry the `IoError` kind: mounting
`c7img1` (no type-0x07 MBR entry) and mounting `c7img2` (partition
found, but no `NTFS` tag at offset 3 of its boot sector) return
`IO_ERROR`, which is a different kind from `INVALID_BOOT_SECTOR`. -/
theorem C7_counterexample :
    (mount c7img1).1 = Res.err NTFSErrorK.ioError ∧
    (mount c7img2).1 = Res.err NTFSErrorK.ioError ∧
    NTFSErrorK.ioError ≠ NTFSErrorK.invalidBootSector := by
  refine ⟨by decide, by decide, by decide⟩

/-- C7, amended.  Mounting fails with the `IoError` kind both when
the MBR scan finds no type-0x07 entry and when the `NTFS` signature
check at offset 3 of the partition's boot sector fails;
`InvalidBootSector` can only come from `NTFSBootSector.from_bytes`,
which mount reaches only after its own signature check has passed. -/
theorem C7_mount_errors (files files1 files2 : List SegFile)
    (mbr boot : List Nat) (poff : Nat) :
    (splitRead files 0 512 = (some mbr, files1) → mbr ≠ [] →
      scanPartitions mbr = Except.ok none →
      (mount files).1 = Res.err NTFSErrorK.ioError) ∧
    (splitRead files 0 512 = (some mbr, files1) → mbr ≠ [] →
      scanPartitions mbr = Except.ok (some poff) →
      splitRead files1 poff 512 = (some boot, files2) → boot ≠ [] →
      bytesAt boot 3 4 ≠ [78, 84, 70, 83] →
      (mount files).1 = Res.err NTFSErrorK.ioError) := by
  constructor
  · intro h1 hne hscan
    unfold mount
    rw [h1]
    simp [hne, hscan]
  · intro h1 hne hscan h2 hbne hsig
    unfold mount
    rw [h1]
    simp only [hne, hscan, if_neg]
    rw [h2]
    simp [hbne, hsig]

set_option maxRecDepth 8192 in
/-- C7, witness: `C7_mount_errors` discharged on the two concrete
images, with the intermediate read results supplied explicitly. -/
theorem C7_mount_errors_witness :
    (mount c7img1).1 = Res.err NTFSErrorK.ioError ∧
    (mount c7img2).1 = Res.err NTFSErrorK.ioError := by
  constructor
  · exact (C7_mount_errors c7img1 [⟨List.replicate 600 0, 512⟩] []
      (List.replicate 512 0) [] 0).1 (by decide) (by decide) (by rfl)
  · exact (C7_mount_errors c7img2 [⟨c7img2c, 512⟩] [⟨c7img2c, 1024⟩]
      c7mbr2 (List.replicate 512 0) 512).2 (by decide) (by decide) (by rfl)
      (by decide) (by decide) (by decide)

/-- C5, the code deviating from the claim at two concrete inputs.
First conjunct block: on segments of sizes 5 and 10 the range
`[12, 14)` lies inside the 15-byte image, yet `read(12, 2)` returns
`None` — the source divides the offset by the *first* segment's size
(`12 / 5 = 2 ≥ 2` open files).  Second block: on two equal 10-byte
segments, `read(15, 5)` followed by `read(5, 10)` returns only 5 of
the requested 10 bytes although `[5, 15)` is inside the 20-byte
image — the spill loop reads the next segment from its stale file
position without seeking. -/
theorem C5_split_read_bug :
    ((5 : Nat) + 10 = 15 ∧ 12 + 2 ≤ 15 ∧
      (splitRead c5imgUneq 12 2).1 = none) ∧
    ((10 : Nat) + 10 = 20 ∧ 5 + 10 ≤ 20 ∧
      (splitRead (splitRead c5eq 15 5).2 5 10).1 = some (List.replicate 5 1) ∧
      (List.replicate 5 1).length = 5 ∧ ¬ (5 : Nat) = 10) := by
  refine ⟨⟨by decide, by decide, by decide⟩,
    ⟨by decide, by decide, by decide, by decide, by decide⟩⟩

set_option maxRecDepth 8192 in
/-- C2, the code at the failing inputs.  `c2data` is a 1024-byte MFT
record whose USA check fails at every sector position
(`usaMismatch`), yet `read_mft_entry` decodes it successfully — no
fix-up is applied or verified anywhere on the path, so no
`InvalidMft` arises.  Likewise `c2indx` is an INDX block with a
failing USA check, and `_parse_index_allocation` happily walks it and
emits its entry. -/
theorem C2_no_fixup :
    usaMismatch c2data = true ∧
    readMftEntry c2readAt 0 0 1 1 0 1024 =
      some (Res.ok ⟨0, 0, 0, 0, 1024, 0, []⟩) ∧
    usaMismatch c2indx = true ∧
    parseIndexAllocation c2rm c2rcIndx c2ia = [mkNTFSFile c2entry100] := by
  refine ⟨by decide, by decide, by decide, by decide⟩

set_option maxRecDepth 8192 in
/-- C3, counterexample.  The `$INDEX_ROOT` of `c3dir` holds an entry
whose file reference is `2^48` — MFT index 0 (≤ 11), sequence 1 —
named `$MFT`; because the source compares the *full 64-bit* reference
against 11, the entry is not suppressed and the `$MFT` File View
(derived from MFT index 0) appears in the user-visible listing. -/
theorem C3_counterexample :
    u64 c3root 28 = 2 ^ 48 ∧ (2 ^ 48 : Nat) % 2 ^ 48 = 0 ∧
    utf16Decode (bytesAt c3root 102 8) = some [36, 77, 70, 84] ∧
    startsDollar [36, 77, 70, 84] = true ∧
    listDirectory c3rm c3rcErr c3dir = [mkNTFSFile c3mft0] ∧
    (mkNTFSFile c3mft0).mft_entry.reference = 0 ∧
    (mkNTFSFile c3mft0).name = some [36, 77, 70, 84] := by
  refine ⟨by decide, by decide, by decide, by decide, by decide, by decide,
    by decide⟩

/-- C3, amended.  The `$`-name filter in both index walks compares
the *full 64-bit* file reference with 11, so it suppresses an entry
only when the sequence bits are zero as well (first two conjuncts:
such an entry is skipped and the walk moves on); and the recovery
scan applies no such filter at all (third conjunct: any decoded
not-in-use record with a `$FILE_NAME` is listed, whatever its name
and index). -/
theorem C3_system_file_filter :
    (∀ (rm : Nat → Res MFTEntry) (data : List Nat) (off fuel L : Nat)
      (fname : List Nat),
      off + 8 ≤ data.length →
      u32 data off = L → L ≠ 0 →
      ¬ off + L > data.length →
      off + 16 + 66 ≤ data.length →
      off + 16 + 66 + ((byteAt data (off + 16 + 64)).getD 0) * 2 ≤ data.length →
      utf16Decode (bytesAt data (off + 16 + 66)
        (((byteAt data (off + 16 + 64)).getD 0) * 2)) = some fname →
      startsDollar fname = true →
      u64 data (off + 8) ≤ 11 →
      rootWalkAux rm data (fuel + 1) off = rootWalkAux rm data fuel (off + L)) ∧
    (∀ (rm : Nat → Res MFTEntry) (data : List Nat) (off fuel L fb nl ns : Nat)
      (fname : List Nat),
      off + 16 < data.length →
      byteAt data (off + 12) = some fb → ¬ fb % 4 / 2 = 1 →
      u16 data (off + 8) = L → L ≠ 0 →
      ¬ off + L > data.length →
      off + 16 + u16 data (off + 10) ≤ data.length →
      byteAt data (off + 16 + 64) = some nl →
      byteAt data (off + 16 + 65) = some ns →
      off + 16 + 66 + nl * 2 ≤ data.length →
      utf16Decode (bytesAt data (off + 16 + 66) (nl * 2)) = some fname →
      startsDollar fname = true →
      u64 data off ≤ 11 →
      allocWalkAux rm data (fuel + 1) off = allocWalkAux rm data fuel (off + L)) ∧
    (∀ (rm : Nat → Res MFTEntry) (i : Nat) (e : MFTEntry),
      i < 100000 → rm i = Res.ok e →
      e.isInUse = false → e.hasFileName = true →
      mkNTFSFile e ∈ listDeletedFiles rm) := by
  refine ⟨?_, ?_, ?_⟩
  · intro rm data off fuel L fname hg hL hLne hcross hfn hnb hdec hds hle
    simp only [rootWalkAux, hL]
    rw [if_pos hg, if_neg hLne, if_neg hcross]
    by_cases h0 : u64 data (off + 8) ≠ 0
    · simp only [h0, if_true, if_pos hfn, if_pos hnb, hdec]
      have hcond : (fname ≠ [46] && fname ≠ [46, 46] &&
          !(startsDollar fname && u64 data (off + 8) ≤ 11)) = false := by
        simp [hds, hle]
      rw [hcond]
      simp
    · simp only [h0]
      simp
  · intro rm data off fuel L fb nl ns fname hg hfb hflag hL hLne hcross hkey
      h64 h65 hnb hdec hds hle
    simp only [allocWalkAux, hL, hfb, Option.getD_some]
    rw [if_pos hg, if_neg hflag, if_neg hLne, if_neg hcross]
    simp only [if_pos hkey, h64, h65, if_pos hnb, hdec]
    have hcond : (!(startsDollar fname && u64 data off ≤ 11)) = false := by
      simp [hds, hle]
    rw [hcond]
    simp
  · intro rm i e hi hrm hu hf
    rw [listDeletedFiles_eq]
    unfold deletedScanSpec
    rw [List.mem_filterMap]
    refine ⟨i, by simpa using hi, ?_⟩
    rw [hrm]
    simp [hu, hf]

set_option maxRecDepth 8192 in
/-- C3, witness: the three conjuncts of `C3_system_file_filter`
discharged on concrete inputs — the `$MFT` entry with reference 3 in
a root walk, the `$`-named entry with reference 3 in an INDX walk,
and the deleted `$MFT`-named record 4 surfacing in the recovery
scan. -/
theorem C3_system_file_filter_witness :
    rootWalkAux c3rm c3rootLow (97 + 1) 20 = rootWalkAux c3rm c3rootLow 97 116 ∧
    allocWalkAux c2rm c3indxLow (100 + 1) 64 =
      allocWalkAux c2rm c3indxLow 100 152 ∧
    mkNTFSFile c3delEntry ∈ listDeletedFiles c3rmDel := by
  refine ⟨C3_system_file_filter.1 c3rm c3rootLow 20 97 96 [36, 77, 70, 84]
      (by decide) (by decide) (by decide) (by decide) (by decide) (by decide)
      (by decide) (by decide) (by decide),
    C3_system_file_filter.2.1 c2rm c3indxLow 64 100 88 0 1 1 [36]
      (by decide) (by decide) (by decide) (by decide) (by decide) (by decide)
      (by decide) (by decide) (by decide) (by decide) (by decide) (by decide)
      (by decide),
    C3_system_file_filter.2.2 c3rmDel 4 c3delEntry (by decide) (by decide)
      (by decide) (by decide)⟩

set_option maxRecDepth 8192 in
/-- C6, counterexample.  Decoding `c6root`'s entries with the claimed
shared shape stops immediately — the byte at entry offset +12 has the
0x02 "last entry" bit — yet the source's `$INDEX_ROOT` walk emits a
file: it reads `entry_length` as a u32 at +0 and the file reference
as a u64 at +8 (which swallows the byte at +12), and never checks a
flags byte.  The two walks do not share the claimed shape. -/
theorem C6_counterexample :
    (byteAt c6root 32).getD 0 = 2 ∧
    sharedEntriesSpec c6root 20 = [] ∧
    u64 c6root 28 = 8589934599 ∧
    listDirectory c6rm c3rcErr c6dir = [mkNTFSFile c6mft] ∧
    (mkNTFSFile c6mft).name = some [88] := by
  refine ⟨by decide, by decide, by decide, by decide, by decide⟩

/-- C6, amended.  The `$INDEX_ALLOCATION` walk does use the claimed
shape — file reference u64 at +0, `entry_length` u16 at +8, flags u8
at +12 — and stops on the 0x02 flag bit, a zero `entry_length`, or an
entry crossing the container (first three conjuncts).  The
`$INDEX_ROOT` walk instead reads `entry_length` as a u32 at entry
offset +0 and the file reference as a u64 at +8, stops only on a zero
length or a crossing entry, and consults no flags byte (last two
conjuncts: it stops on a zero u32 at +0, and otherwise advances by
that u32 with no condition on the byte at +12). -/
theorem C6_entry_walks :
    (∀ (rm : Nat → Res MFTEntry) (data : List Nat) (off fb : Nat),
      byteAt data (off + 12) = some fb → fb % 4 / 2 = 1 →
      off + 16 < data.length → allocWalk rm data off = []) ∧
    (∀ (rm : Nat → Res MFTEntry) (data : List Nat) (off fb : Nat),
      byteAt data (off + 12) = some fb → ¬ fb % 4 / 2 = 1 →
      u16 data (off + 8) = 0 → off + 16 < data.length →
      allocWalk rm data off = []) ∧
    (∀ (rm : Nat → Res MFTEntry) (data : List Nat) (off fb L : Nat),
      byteAt data (off + 12) = some fb → ¬ fb % 4 / 2 = 1 →
      u16 data (off + 8) = L → L ≠ 0 → off + L > data.length →
      off + 16 < data.length → allocWalk rm data off = []) ∧
    (∀ (rm : Nat → Res MFTEntry) (data : List Nat) (off : Nat),
      off + 8 ≤ data.length → u32 data off = 0 →
      rootWalk rm data off = []) ∧
    (∀ (rm : Nat → Res MFTEntry) (data : List Nat) (off fuel L : Nat),
      off + 8 ≤ data.length → u32 data off = L → L ≠ 0 →
      ¬ off + L > data.length → u64 data (off + 8) = 0 →
      rootWalkAux rm data (fuel + 1) off = rootWalkAux rm data fuel (off + L)) := by
  refine ⟨?_, ?_, ?_, ?_, ?_⟩
  · intro rm data off fb hfb hflag hg
    simp only [allocWalk, allocWalkAux, hfb, Option.getD_some]
    rw [if_pos hg, if_pos hflag]
  · intro rm data off fb hfb hflag hz hg
    simp only [allocWalk, allocWalkAux, hfb, Option.getD_some, hz]
    rw [if_pos hg, if_neg hflag]
    simp
  · intro rm data off fb L hfb hflag hL hLne hcross hg
    simp only [allocWalk, allocWalkAux, hfb, Option.getD_some, hL]
    rw [if_pos hg, if_neg hflag, if_neg hLne, if_pos hcross]
  · intro rm data off hg hz
    simp only [rootWalk, rootWalkAux, hz]
    rw [if_pos hg]
    simp
  · intro rm data off fuel L hg hL hLne hcross h0
    simp only [rootWalkAux, hL, h0]
    rw [if_pos hg, if_neg hLne, if_neg hcross]
    simp

/-- C6, witness: the five conjuncts of `C6_entry_walks` at concrete
buffers — a flagged INDX entry, a zero-length INDX entry, a crossing
INDX entry, a zero-length root entry, and a root entry advanced by
the u32 at +0 while its +12 byte is ignored. -/
theorem C6_entry_walks_witness :
    allocWalk c3rm (List.replicate 12 0 ++ [2] ++ List.replicate 4 0) 0 = [] ∧
    allocWalk c3rm (List.replicate 17 0) 0 = [] ∧
    allocWalk c3rm (List.replicate 8 0 ++ [200, 0] ++ List.replicate 7 0) 0 = [] ∧
    rootWalk c3rm (List.replicate 10 0) 0 = [] ∧
    rootWalkAux c3rm ([9, 0, 0, 0] ++ List.replicate 12 0) (5 + 1) 0 =
      rootWalkAux c3rm ([9, 0, 0, 0] ++ List.replicate 12 0) 5 9 :=
  ⟨C6_entry_walks.1 c3rm _ 0 2 (by decide) (by decide) (by decide),
   C6_entry_walks.2.1 c3rm _ 0 0 (by decide) (by decide) (by decide) (by decide),
   C6_entry_walks.2.2.1 c3rm _ 0 0 200 (by decide) (by decide) (by decide)
     (by decide) (by decide) (by decide),
   C6_entry_walks.2.2.2.1 c3rm _ 0 (by decide) (by decide),
   C6_entry_walks.2.2.2.2 c3rm _ 0 5 9 (by decide) (by decide) (by decide)
     (by decide) (by decide)⟩

end NTFSParser
